import Mathlib

/-!
Verification of the ai-ticket-agent repository (src/llm.py, src/main.py,
src/jira.py, src/slack.py, src/models.py) against its natural-language
specification.

Python strings are embedded as lists of characters (`Str`), and the string
primitives the source uses (`str.lower`, `str.strip`, `str.split`,
`str.splitlines`, the `in` substring test, truthiness) are defined here as
executable Lean functions with Python's semantics on ASCII text
(`str.split()` splits on runs of whitespace — including the ASCII separator
characters — and drops empty fields, `str.splitlines()` breaks at every
ASCII line boundary, `in` is the infix test which accepts the empty
needle).  Fallible code is embedded with `Except`, external collaborators
(OpenAI, llama-cpp, Jira, Slack, the database) as explicit outcome values at
their interface boundary, and the database session as an explicit list of
records threaded through each handler.
-/

/-- Python strings, embedded as their character sequences. -/
abbrev Str := List Char

/-- Python whitespace test: the ASCII characters `str.split()` /
`str.strip()` treat as separators (space, tab, LF, CR, VT, FF and the
information separators `\x1c`-`\x1f`). -/
def isWS (c : Char) : Bool :=
  c.toNat = 32 || c.toNat = 9 || c.toNat = 10 || c.toNat = 13 ||
  c.toNat = 11 || c.toNat = 12 || c.toNat = 28 || c.toNat = 29 ||
  c.toNat = 30 || c.toNat = 31

/-- ASCII lowercasing of one character, as `str.lower` does on ASCII input. -/
def pyLowerChar (c : Char) : Char :=
  if 65 ≤ c.toNat ∧ c.toNat ≤ 90 then Char.ofNat (c.toNat + 32) else c

/-- `s.lower()`. -/
def pyLower (s : Str) : Str := s.map pyLowerChar

/-- `s.strip()`: drop leading and trailing whitespace. -/
def pyTrim (s : Str) : Str :=
  ((s.dropWhile isWS).reverse.dropWhile isWS).reverse

/-- Accumulator worker for `words`: the current (reversed) word is carried in
`acc` and flushed at each whitespace run or at the end. -/
def wordsAux : Str → Str → List Str
  | [], acc => if acc.isEmpty then [] else [acc.reverse]
  | c :: cs, acc =>
    if isWS c then
      if acc.isEmpty then wordsAux cs [] else acc.reverse :: wordsAux cs []
    else wordsAux cs (c :: acc)

/-- `s.split()` with no argument: split on runs of whitespace, no empty
fields. -/
def words (s : Str) : List Str := wordsAux s []

/-- Split a list at every separator character, keeping empty fields
(`"a\nb"` gives two fields, `"\n"` gives two empty fields). -/
def splitOnPred (p : Char → Bool) : Str → List Str
  | [] => [[]]
  | c :: cs =>
    if p c then [] :: splitOnPred p cs
    else
      match splitOnPred p cs with
      | [] => [[c]]
      | w :: ws => (c :: w) :: ws

/-- `s.splitlines()` on ASCII input: breaks at every ASCII line boundary
(LF, CR, VT, FF, `\x1c`, `\x1d`, `\x1e`), up to empty fields around
`\r\n` pairs (the caller in `_normalize_label` strips and discards empty
lines, so the difference is unobservable there). -/
def splitLines (s : Str) : List Str :=
  splitOnPred (fun c =>
    c.toNat = 10 || c.toNat = 13 || c.toNat = 11 || c.toNat = 12 ||
    c.toNat = 28 || c.toNat = 29 || c.toNat = 30) s

/-- Whether `hay` starts with `pat`. -/
def leadsWith : Str → Str → Bool
  | _, [] => true
  | [], _ :: _ => false
  | c :: cs, d :: ds => c = d && leadsWith cs ds

/-- Python's substring test `pat in hay` (true for the empty `pat`). -/
def strHas (pat : Str) : Str → Bool
  | [] => pat.isEmpty
  | c :: cs => leadsWith (c :: cs) pat || strHas pat cs

/-- Truthiness of an optional Python string value: `None` and `""` are
falsy. -/
def optTruthy : Option Str → Bool
  | none => false
  | some s => !s.isEmpty

/-- Truthiness of an optional string at the `String` layer (environment
variables, form fields). -/
def optStrTruthy : Option String → Bool
  | none => false
  | some s => !s.isEmpty

/-- The apostrophe character U+0027 (two of the fixed keywords contain it). -/
def apos : Char := Char.ofNat 39

/-! ## src/llm.py -/

/-- `LABELS` (llm.py line 13). -/
def LABELS : List Str :=
  ["Task".data, "Bug".data, "Incident".data, "Feature Request".data,
   "Question".data]

/-- `bug_words` (llm.py lines 21-26). -/
def bug_words : List Str :=
  ["crash".data, "crashes".data, "crashed".data, "exception".data,
   "stack trace".data, "nullpointer".data, "segfault".data,
   "error".data, "fail".data, "failed".data, "not working".data,
   "doesn".data ++ [apos] ++ "t work".data, "doesnt work".data,
   "broken".data,
   "login failed".data, "login error".data, "cannot login".data,
   "can".data ++ [apos] ++ "t login".data, "cant login".data,
   "unable to login".data,
   "authentication".data, "auth".data, "sign in".data, "signin".data,
   "login page".data]

/-- `incident_words` (llm.py line 27). -/
def incident_words : List Str :=
  ["outage".data, "down".data, "unavailable".data, "service is down".data,
   "cannot".data, "unable to".data, "timeout".data, "incident".data]

/-- `feature_words` (llm.py line 28). -/
def feature_words : List Str :=
  ["feature".data, "enhancement".data, "request".data, "add".data,
   "support".data, "improve".data, "improvement".data]

/-- `question_words` (llm.py line 29). -/
def question_words : List Str :=
  ["how do".data, "how to".data, "why".data, "what is".data,
   "question".data, "help".data, "can i".data]

/-- `_heuristic_label_from_text` (llm.py lines 16-39).  The argument is
optional because the final fallback of `_normalize_label` passes
`original_text`, which can be `None`; `if not text` then takes the same
branch as for the empty string. -/
def heuristic (text : Option Str) : Str :=
  match text with
  | none => "Task".data
  | some t =>
    if t.isEmpty then "Task".data
    else
      let tl := pyLower t
      if bug_words.any (fun w => strHas w tl) then "Bug".data
      else if incident_words.any (fun w => strHas w tl) then "Incident".data
      else if feature_words.any (fun w => strHas w tl) then
        "Feature Request".data
      else if question_words.any (fun w => strHas w tl) then "Question".data
      else "Task".data

/-- The candidate line of `_normalize_label` (llm.py lines 52-53): the first
non-empty stripped line of the reply, or the stripped reply if every line is
blank. -/
def candidate (reply : Str) : Str :=
  match ((splitLines reply).map pyTrim).filter (fun l => !l.isEmpty) with
  | [] => pyTrim reply
  | l :: _ => l

/-- One iteration of the label loop of `_normalize_label` (llm.py lines
59-70): the label is accepted on an exact case-insensitive match of the
stripped candidate, or when the candidate's leading lowercased tokens equal
the label's lowercased tokens; a candidate with no tokens matches nothing
(the `continue`). -/
def labelMatches (r : Str) (lbl : Str) : Bool :=
  let lblTokens := words (pyLower lbl)
  let rTokens := words (pyLower r)
  if rTokens.isEmpty then false
  else
    (pyLower (pyTrim r) == pyLower lbl) ||
    (decide (lblTokens.length ≤ rTokens.length) &&
      (rTokens.take lblTokens.length == lblTokens))

/-- The conservative keyword scan over the reply and the final fallback of
`_normalize_label` (llm.py lines 81-93). -/
def replyScan (r : Str) (original_text : Option Str) : Str :=
  let low_r := pyLower r
  if ["crash".data, "exception".data, "error".data, "fail".data,
      "failed".data, "stack trace".data].any (fun k => strHas k low_r) then
    "Bug".data
  else if ["outage".data, "down".data, "unavailable".data,
      "service is down".data, "outage".data].any (fun k => strHas k low_r) then
    "Incident".data
  else if ["feature request".data, "feature".data, "enhancement".data,
      "request".data, "improve".data].any (fun k => strHas k low_r) then
    "Feature Request".data
  else if ["how".data, "why".data, "what".data, "help".data,
      "question".data].any (fun k => strHas k low_r) then
    "Question".data
  else heuristic original_text

/-- `_normalize_label` (llm.py lines 42-93).  `reply = none` stands for a
non-string (or absent) reply, which the `isinstance` guard sends to the
heuristic exactly like the empty string. -/
def normalize_label (reply : Option Str) (original_text : Option Str) : Str :=
  match reply with
  | none => heuristic original_text
  | some rp =>
    if rp.isEmpty then heuristic original_text
    else
      let r := candidate rp
      match LABELS.find? (fun lbl => labelMatches r lbl) with
      | some lbl => lbl
      | none =>
        if optTruthy original_text then
          let h := heuristic original_text
          if !h.isEmpty && h != "Task".data then h
          else replyScan r original_text
        else replyScan r original_text

/-- The configuration read at import time (llm.py lines 9-10): the two
environment variables gating the inference tiers. -/
structure LlmConfig where
  GGML_MODEL_PATH : Option String
  OPENAI_API_KEY : Option String

/-- Outcome of one local-tier attempt (`_classify_with_ggml`, llm.py lines
147-252), at the boundary of the llama-cpp collaborator: the model file may
be missing (line 152), the import may fail (line 158), running the model may
raise (line 248), or a reply is produced — possibly `None` when no method
yielded text (line 244). -/
inductive GgmlOutcome
  | fileMissing
  | importError
  | runError
  | success (reply : Option Str)

/-- Outcome of one remote-tier attempt (`_classify_with_openai`, llm.py
lines 96-144), at the boundary of the OpenAI collaborator: transport error
(line 124), a 401 (line 128), an unparseable body (line 134), an unexpected
structure (line 140), or a reply string. -/
inductive OpenAIOutcome
  | requestError
  | status401
  | parseError
  | structureError
  | success (reply : Str)

/-- `_classify_with_ggml` (llm.py lines 147-252): every failure is swallowed
into `"Task"`; a produced reply is fed to the normalizer with the original
text. -/
def classify_with_ggml (text : Str) (cfg : LlmConfig) (g : GgmlOutcome) :
    Str :=
  if !optStrTruthy cfg.GGML_MODEL_PATH then "Task".data
  else
    match g with
    | .fileMissing => "Task".data
    | .importError => "Task".data
    | .runError => "Task".data
    | .success reply => normalize_label reply (some text)

/-- `_classify_with_openai` (llm.py lines 96-144): every failure is
swallowed into `"Task"`; a reply is stripped (line 139) and normalized with
the original text. -/
def classify_with_openai (text : Str) (cfg : LlmConfig) (o : OpenAIOutcome) :
    Str :=
  if !optStrTruthy cfg.OPENAI_API_KEY then "Task".data
  else
    match o with
    | .requestError => "Task".data
    | .status401 => "Task".data
    | .parseError => "Task".data
    | .structureError => "Task".data
    | .success reply => normalize_label (some (pyTrim reply)) (some text)

/-- `classify_ticket` (llm.py lines 255-275): local tier first when
configured, its result kept only when not `"Task"`; then the remote tier
when configured; else the fixed default. -/
def classify_ticket (text : Str) (cfg : LlmConfig) (g : GgmlOutcome)
    (o : OpenAIOutcome) : Str :=
  let step2 :=
    if optStrTruthy cfg.OPENAI_API_KEY then classify_with_openai text cfg o
    else "Task".data
  if optStrTruthy cfg.GGML_MODEL_PATH then
    let lbl := classify_with_ggml text cfg g
    if !lbl.isEmpty && lbl != "Task".data then lbl else step2
  else step2

/-! ## src/models.py -/

/-- `TicketLog` (models.py lines 7-16).  The database-assigned surrogate
`id` and `created_at` default are not modeled: no handler reads them and no
claim mentions them.  All columns are nullable strings. -/
structure TicketLog where
  slack_user : Option String
  slack_channel : Option String
  ticket_id : Option String
  jira_issue_key : Option String
  llm_result : Option String
  status : Option String
deriving DecidableEq, Repr

/-! ## src/slack.py -/

/-- One interactive button of the approval block (slack.py lines 84-99). -/
structure SlackButton where
  text : String
  style : String
  value : String
  action_id : String
deriving DecidableEq, Repr

/-- One block of a Slack message (slack.py lines 73-102). -/
inductive SlackBlock
  | section (text : String)
  | actions (block_id : String) (elements : List SlackButton)
deriving DecidableEq, Repr

/-- `build_approval_block` (slack.py lines 71-102): both buttons carry the
Jira key as their payload value; a falsy key is replaced by `"UNKNOWN"`. -/
def build_approval_block (jira_key : Option String) : List SlackBlock :=
  let safe_key :=
    match jira_key with
    | some s => if s.isEmpty then "UNKNOWN" else s
    | none => "UNKNOWN"
  [SlackBlock.section
      ("Jira ticket *" ++ safe_key ++
       "* has been created. Do you want to approve or reject it?"),
   SlackBlock.actions ("actions_" ++ safe_key)
      [⟨"Approve", "primary", safe_key, "approve_ticket"⟩,
       ⟨"Reject", "danger", safe_key, "reject_ticket"⟩]]

/-- The externally observable requests a handler issues (Slack posts and
Jira issue creation).  `send_message` (slack.py lines 13-69) swallows every
delivery error, so a handler's behaviour is fully described by the requests
it emits. -/
inductive Eff
  | sendMessage (channel : Option String) (text : String)
      (blocks : Option (List SlackBlock)) (fallback_user : Option String)
  | createIssue (summary description : Option String)
      (project : String) (issue_type : String)
deriving DecidableEq, Repr

/-! ## src/jira.py -/

/-- `JIRA_PROJECT_KEY` (jira.py line 17): read from config.yml with this
default; the claims do not depend on its value. -/
def JIRA_PROJECT_KEY : String := "YOURPROJECT"

/-- The `status` object inside a Jira issue's `fields`. -/
structure JiraStatusField where
  name : Option String
deriving DecidableEq, Repr

/-- The `fields` object of a Jira issue response. -/
structure JiraFields where
  status : Option JiraStatusField
deriving DecidableEq, Repr

/-- A parsed Jira issue response body. -/
structure JiraIssueBody where
  fields : Option JiraFields
deriving DecidableEq, Repr

/-- Outcome of the Jira status request (jira.py lines 92-114) at the HTTP
boundary: the GET may raise, or return a status code with a body that is or
is not parseable JSON (`body = none` for an unparseable body). -/
inductive JiraStatusOutcome
  | transportError
  | response (code : Nat) (body : Option JiraIssueBody)

/-- Python exceptions that escape a handler unhandled. -/
inductive PyErr
  | keyError
  | indexError
  | parseError
deriving DecidableEq, Repr

/-- Decidable equality for handler results, so that concrete runs can be
checked by `decide`. -/
instance {ε α : Type} [DecidableEq ε] [DecidableEq α] :
    DecidableEq (Except ε α) := fun x y =>
  match x, y with
  | .ok a, .ok b =>
    if h : a = b then .isTrue (by rw [h])
    else .isFalse (fun hc => h (Except.ok.inj hc))
  | .error a, .error b =>
    if h : a = b then .isTrue (by rw [h])
    else .isFalse (fun hc => h (Except.error.inj hc))
  | .ok _, .error _ => .isFalse (fun hc => Except.noConfusion hc)
  | .error _, .ok _ => .isFalse (fun hc => Except.noConfusion hc)

/-- `get_jira_status` (jira.py lines 85-114).  A falsy or blank key answers
`"Unknown"` without a request; a transport error or non-200 answers
`"Unknown"`; a 200 response re-parses the body at line 110 with no guard, so
a 200 response whose body is not JSON raises (the `try` at lines 102-107
catches the first parse only). -/
def get_jira_status (issue_key : Option String)
    (outcome : JiraStatusOutcome) : Except PyErr String :=
  match issue_key with
  | none => .ok "Unknown"
  | some s =>
    if s.isEmpty || (⟨pyTrim s.data⟩ : String).isEmpty then .ok "Unknown"
    else
      match outcome with
      | .transportError => .ok "Unknown"
      | .response code body =>
        if code = 200 then
          match body with
          | none => .error .parseError
          | some b =>
            .ok (((b.fields.getD ⟨none⟩).status.getD ⟨none⟩).name.getD
              "Unknown")
        else .ok "Unknown"

/-! ## src/main.py -/

/-- Outcome of the `classify_ticket` call made by the background unit
(main.py line 40) at its boundary: a label, or a raised exception (caught at
line 41). -/
inductive ClassifyOutcome
  | ok (lbl : String)
  | exc

/-- The category computed by the background unit (main.py lines 38-43):
`"Task"` for falsy text, the engine's label otherwise, downgraded to
`"Task"` when the engine raises. -/
def computeCategory (text : Option String) (co : ClassifyOutcome) : String :=
  if optStrTruthy text then
    match co with
    | .ok lbl => lbl
    | .exc => "Task"
  else "Task"

/-- `label_to_issue_type` (main.py lines 46-52). -/
def label_to_issue_type : List (String × String) :=
  [("Task", "Task"), ("Bug", "Bug"), ("Incident", "Incident"),
   ("Feature Request", "Task"), ("Question", "Question")]

/-- The issue-type lookup with its `"Task"` default (main.py line 53). -/
def issue_type_for (category : String) : String :=
  (label_to_issue_type.lookup category).getD "Task"

/-- The text of the failure notification (main.py line 81). -/
def failText : String := "Failed to create Jira ticket. Please check server logs."

/-- `_background_handle_ticket` (main.py lines 35-85).  `jiraRes` is the
Ticket Issue Collaborator's result at its interface boundary
(`create_jira_issue`, jira.py lines 57-82, returns the new key on a 201 with
a key and `None` on any handled failure).  The result is the database
contents after the task and the external requests it issued, in order.
`send_message` failures are caught (lines 76-77, 82-83), so the notification
request is issued unconditionally in each branch. -/
def background_handle_ticket (text user_id channel_id : Option String)
    (co : ClassifyOutcome) (jiraRes : Option String)
    (store : List TicketLog) : List TicketLog × List Eff :=
  let category := computeCategory text co
  let effs0 : List Eff :=
    [.createIssue text text JIRA_PROJECT_KEY (issue_type_for category)]
  match jiraRes with
  | some k =>
    if k.isEmpty then
      (store, effs0 ++ [.sendMessage channel_id failText none user_id])
    else
      (store ++
        [{ slack_user := user_id, slack_channel := channel_id,
           ticket_id := some k, jira_issue_key := some k,
           llm_result := some category, status := some "created" }],
       effs0 ++
        [.sendMessage channel_id ("Ticket has been created: " ++ k)
          (some (build_approval_block (some k))) user_id])
  | none =>
    (store, effs0 ++ [.sendMessage channel_id failText none user_id])

/-- One element of the interaction payload's `actions` array. -/
structure ActionItem where
  action_id : Option String
  value : Option String
deriving DecidableEq, Repr

/-- The `channel` object of an interaction payload. -/
structure PayloadChannel where
  id : Option String
deriving DecidableEq, Repr

/-- The `container` object of an interaction payload. -/
structure PayloadContainer where
  channel_id : Option String
deriving DecidableEq, Repr

/-- A parsed interaction payload (the JSON object `slack_actions` reads). -/
structure Payload where
  actions : Option (List ActionItem)
  channel : Option PayloadChannel
  container : Option PayloadContainer
  channel_id : Option String
deriving DecidableEq, Repr

/-- How the interaction reaches `slack_actions` (main.py lines 112-125): a
JSON body, a form with a `payload` field, or a form without one whose raw
body is or is not JSON.  `Invalid` variants stand for bodies that are not
parseable JSON. -/
inductive ActionsRequest
  | jsonBody (p : Payload)
  | jsonBodyInvalid
  | formWithPayload (p : Payload)
  | formPayloadInvalid
  | formNoPayloadRawJson (p : Payload)
  | formNoPayloadRawInvalid
deriving DecidableEq, Repr

/-- The channel resolution of `slack_actions` (main.py lines 130-136),
given the payload.  Presence of the nested objects is modeled by `some`; the
string fields are tested for truthiness as `.get` results. -/
def resolveChannel (p : Payload) : Option String :=
  match p.channel with
  | some c => if optStrTruthy c.id then c.id else resolveChannelFallback p
  | none => resolveChannelFallback p
where
  resolveChannelFallback (p : Payload) : Option String :=
    match p.container with
    | some ct =>
      if optStrTruthy ct.channel_id then ct.channel_id else p.channel_id
    | none => p.channel_id

/-- `str(x)` of an optional string, as an f-string renders it (`None` for a
missing value). -/
def pyStr (o : Option String) : String := o.getD "None"

/-- Replace the first record whose `ticket_id` equals the key — the ORM
object `first()` returned, mutated and committed (main.py lines 139-151). -/
def updateFirst (store : List TicketLog) (key : Option String)
    (f : TicketLog → TicketLog) : List TicketLog :=
  match store with
  | [] => []
  | r :: rs =>
    if r.ticket_id == key then f r :: rs else r :: updateFirst rs key f

/-- The body of `slack_actions` from line 127 on, once a payload has been
parsed: `payload["actions"][0]["action_id"]` raises a `KeyError` when
`actions` is absent, an `IndexError` when it is empty, and a `KeyError` when
the first action has no `action_id`; the record lookup and the two status
transitions follow (main.py lines 127-153). -/
def slack_actions_payload (p : Payload) (store : List TicketLog) :
    Except PyErr String × List TicketLog × List Eff :=
  match p.actions with
  | none => (.error .keyError, store, [])
  | some [] => (.error .indexError, store, [])
  | some (a :: _) =>
    match a.action_id with
    | none => (.error .keyError, store, [])
    | some action_id =>
      let ticket_id := a.value
      let channel_id := resolveChannel p
      match store.find? (fun r => r.ticket_id == ticket_id) with
      | none =>
        (.ok "ticket not found", store,
         [.sendMessage channel_id
            ("Ticket " ++ pyStr ticket_id ++ " not found in the database.")
            none none])
      | some _ =>
        if action_id = "approve_ticket" then
          (.ok "completed",
           updateFirst store ticket_id
             (fun r => { r with status := some "approved" }),
           [.sendMessage channel_id
              ("Ticket " ++ pyStr ticket_id ++ " has been approved")
              none none])
        else if action_id = "reject_ticket" then
          (.ok "completed",
           updateFirst store ticket_id
             (fun r => { r with status := some "rejected" }),
           [.sendMessage channel_id
              ("Ticket " ++ pyStr ticket_id ++ " has been rejected")
              none none])
        else (.ok "completed", store, [])

/-- `slack_actions` (main.py lines 108-153).  The result is the handler's
response (or the exception that escapes it), the database contents after the
request, and the Slack requests issued.  The generic invalid-payload
response arises only on a form with no `payload` field whose raw body is not
JSON (lines 118-123); an unparseable JSON body or `payload` field raises
unhandled. -/
def slack_actions (req : ActionsRequest) (store : List TicketLog) :
    Except PyErr String × List TicketLog × List Eff :=
  match req with
  | .jsonBody p => slack_actions_payload p store
  | .jsonBodyInvalid => (.error .parseError, store, [])
  | .formWithPayload p => slack_actions_payload p store
  | .formPayloadInvalid => (.error .parseError, store, [])
  | .formNoPayloadRawJson p => slack_actions_payload p store
  | .formNoPayloadRawInvalid => (.ok "invalid payload", store, [])

/-- A command response, the JSON object the handler returns. -/
structure CmdResp where
  response_type : Option String
  text : String
deriving DecidableEq, Repr

/-- The `/ticket_status` branch of `slack_command` (main.py lines 93-101):
a blank key answers the prompt with no Jira request; otherwise the Jira
status is fetched and interpolated, and an exception escaping
`get_jira_status` escapes the handler. -/
def ticket_status_command (text : Option String)
    (outcome : JiraStatusOutcome) : Except PyErr CmdResp :=
  let jira_key : String := ⟨pyTrim (text.getD "").data⟩
  if jira_key.isEmpty then
    .ok ⟨some "ephemeral", "Please provide a ticket key, e.g. /ticket_status KAN-1"⟩
  else
    match get_jira_status (some jira_key) outcome with
    | .error e => .error e
    | .ok status =>
      .ok ⟨some "ephemeral", "Ticket " ++ jira_key ++ " Status: " ++ status⟩

/-- The spec's description of the heuristic scan: an ordered list of keyword
tables, the first table with a containment hit naming the label, no hit
giving the default.  Stated from the spec's words to be compared with the
source-shaped `heuristic`. -/
def firstHit : List (List Str × Str) → Str → Str
  | [], _ => "Task".data
  | (tbl, lbl) :: rest, t =>
    if tbl.any (fun w => strHas w (pyLower t)) then lbl else firstHit rest t

/-- The heuristic as the spec words it: empty text gives the default, else
the tables are scanned in the fixed priority order Bug, Incident,
FeatureRequest, Question. -/
def heuristicSpec (t : Str) : Str :=
  if t.isEmpty then "Task".data
  else
    firstHit
      [(bug_words, "Bug".data), (incident_words, "Incident".data),
       (feature_words, "Feature Request".data),
       (question_words, "Question".data)] t

/-- An interaction request whose first action carries the given action id
and key — the payload Slack posts when one of the approval block's buttons
is clicked. -/
def actionRequest (aid k : String) : ActionsRequest :=
  .formWithPayload
    ⟨some [⟨some aid, some k⟩], some ⟨some "C123"⟩, none, none⟩

/-! ## Helper lemmas about the string primitives -/

/-- A list whose prefix under `take` is a cons starts with its head. -/
theorem head_of_take {α : Type} :
    ∀ (l : List α) (n : Nat) (a : α) (as : List α),
      l.take n = a :: as → l.head? = some a
  | [], n, _, _, h => by cases n <;> simp at h
  | _ :: _, 0, _, _, h => by simp at h
  | b :: l', n + 1, a, as, h => by
    simp only [List.take_succ_cons] at h
    obtain ⟨rfl, -⟩ := List.cons.inj h
    rfl

/-- A run of whitespace contributes nothing but the flush of the carried
word. -/
theorem wordsAux_ws_nil :
    ∀ (ws : Str), (∀ c ∈ ws, isWS c = true) →
      ∀ acc, wordsAux ws acc = wordsAux [] acc := by
  intro ws
  induction ws with
  | nil => intro _ acc; rfl
  | cons c cs ih =>
    intro h acc
    have hc : isWS c = true := h c (by simp)
    have hcs : ∀ x ∈ cs, isWS x = true := fun x hx => h x (by simp [hx])
    simp only [wordsAux, hc, if_true]
    rw [ih hcs []]
    cases hacc : acc.isEmpty <;> simp [wordsAux]

/-- Trailing whitespace does not change the word split. -/
theorem wordsAux_append_ws (ws : Str) (hws : ∀ c ∈ ws, isWS c = true) :
    ∀ (x : Str) (acc : Str), wordsAux (x ++ ws) acc = wordsAux x acc := by
  intro x
  induction x with
  | nil =>
    intro acc
    simpa using wordsAux_ws_nil ws hws acc
  | cons c cs ih =>
    intro acc
    simp only [List.cons_append, wordsAux]
    cases hc : isWS c <;> simp [hc, ih]

/-- Leading whitespace does not change the word split. -/
theorem words_ws_append (ws t : Str) (hws : ∀ c ∈ ws, isWS c = true) :
    words (ws ++ t) = words t := by
  induction ws with
  | nil => rfl
  | cons c cs ih =>
    have hc : isWS c = true := hws c (by simp)
    have hcs : ∀ x ∈ cs, isWS x = true := fun x hx => hws x (by simp [hx])
    have step : words ((c :: cs) ++ t) = wordsAux (cs ++ t) [] := by
      simp [words, wordsAux, hc]
    rw [step]
    exact ih hcs

/-- Surrounding whitespace does not change the word split. -/
theorem words_wrap (ws t ws' : Str) (h1 : ∀ c ∈ ws, isWS c = true)
    (h2 : ∀ c ∈ ws', isWS c = true) : words (ws ++ t ++ ws') = words t := by
  have : ws ++ t ++ ws' = ws ++ (t ++ ws') := by simp
  rw [this, words_ws_append ws (t ++ ws') h1]
  simp only [words]
  rw [wordsAux_append_ws ws' h2 t []]

/-- Every string is its strip wrapped in whitespace. -/
theorem trim_decomp (s : Str) :
    ∃ ws ws', (∀ c ∈ ws, isWS c = true) ∧ (∀ c ∈ ws', isWS c = true) ∧
      s = ws ++ pyTrim s ++ ws' := by
  refine ⟨s.takeWhile isWS,
    ((s.dropWhile isWS).reverse.takeWhile isWS).reverse, ?_, ?_, ?_⟩
  · intro c hc
    exact List.mem_takeWhile_imp hc
  · intro c hc
    rw [List.mem_reverse] at hc
    exact List.mem_takeWhile_imp hc
  · conv_lhs => rw [← List.takeWhile_append_dropWhile (p := isWS) (l := s)]
    rw [List.append_assoc]
    congr 1
    unfold pyTrim
    conv_lhs =>
      rw [← List.reverse_reverse (s.dropWhile isWS),
        ← List.takeWhile_append_dropWhile (p := isWS)
          (l := (s.dropWhile isWS).reverse)]
    rw [List.reverse_append]

/-- Lowercasing fixes whitespace characters. -/
theorem isWS_fix (c : Char) (h : isWS c = true) : pyLowerChar c = c := by
  have hne : ¬(65 ≤ c.toNat ∧ c.toNat ≤ 90) := by
    intro hcon
    simp only [isWS, Bool.or_eq_true, decide_eq_true_eq] at h
    rcases h with ((((((((h | h) | h) | h) | h) | h) | h) | h) | h) | h <;>
      omega
  simp [pyLowerChar, hne]

/-- Lowercasing preserves all-whitespace lists. -/
theorem allWS_map_lower (l : Str) (h : ∀ c ∈ l, isWS c = true) :
    ∀ c ∈ l.map pyLowerChar, isWS c = true := by
  intro c hc
  rw [List.mem_map] at hc
  obtain ⟨c', hc', rfl⟩ := hc
  rw [isWS_fix c' (h c' hc')]
  exact h c' hc'

/-- The token split of the lowercased candidate is unchanged by a prior
strip — the bridge between the loop's exact test (`r.strip().lower()`) and
its token test (`r.lower().split()`). -/
theorem words_lower_trim (s : Str) :
    words (pyLower (pyTrim s)) = words (pyLower s) := by
  obtain ⟨ws, ws', h1, h2, hs⟩ := trim_decomp s
  conv_rhs => rw [hs]
  unfold pyLower
  rw [List.map_append, List.map_append]
  exact (words_wrap _ _ _ (allWS_map_lower ws h1)
    (allWS_map_lower ws' h2)).symm

/-- The label loop accepts a label whose tokens lead the candidate's
tokens. -/
theorem labelMatches_of_tokens (r lbl : Str)
    (hlen : (words (pyLower lbl)).length ≤ (words (pyLower r)).length)
    (htake : (words (pyLower r)).take (words (pyLower lbl)).length =
      words (pyLower lbl))
    (hne : words (pyLower lbl) ≠ []) :
    labelMatches r lbl = true := by
  unfold labelMatches
  have hw : (words (pyLower r)).isEmpty = false := by
    cases hwr : words (pyLower r)
    · rw [hwr] at htake
      simp only [List.take_nil] at htake
      exact absurd htake.symm hne
    · rfl
  have h1 : decide ((words (pyLower lbl)).length ≤
      (words (pyLower r)).length) = true := decide_eq_true hlen
  simp only [hw, Bool.false_eq_true, if_false, htake, h1, beq_self_eq_true,
    Bool.and_self, Bool.true_and, Bool.or_true]

/-- The label loop rejects a label whose first token differs from the
candidate's first token (covering both the exact and the leading-tokens
test). -/
theorem labelMatches_false_of_head (r lbl' : Str) (t0 t0' : Str)
    (rest' : List Str)
    (hw : (words (pyLower r)).head? = some t0)
    (htoks : words (pyLower lbl') = t0' :: rest')
    (hner : t0' ≠ t0) :
    labelMatches r lbl' = false := by
  unfold labelMatches
  have hwe : (words (pyLower r)).isEmpty = false := by
    cases hwr : words (pyLower r)
    · rw [hwr] at hw; simp at hw
    · rfl
  simp only [hwe, Bool.false_eq_true, if_false]
  have hexact : (pyLower (pyTrim r) == pyLower lbl') = false := by
    apply beq_eq_false_iff_ne.mpr
    intro he
    have hwords : words (pyLower r) = words (pyLower lbl') := by
      rw [← words_lower_trim r, he]
    rw [hwords, htoks] at hw
    simp only [List.head?_cons, Option.some.injEq] at hw
    exact hner hw
  have htk : ((words (pyLower r)).take (words (pyLower lbl')).length ==
      words (pyLower lbl')) = false := by
    apply beq_eq_false_iff_ne.mpr
    intro ht
    rw [htoks] at ht
    have hh := head_of_take _ _ _ _ ht
    rw [hw] at hh
    exact hner (Option.some.inj hh).symm
  rw [hexact, htk, Bool.and_false, Bool.or_false]

/-- The heuristic always answers from the closed label set. -/
theorem heuristic_mem (ot : Option Str) : heuristic ot ∈ LABELS := by
  cases ot with
  | none => decide
  | some t =>
    simp only [heuristic]
    split
    · decide
    · split
      · decide
      · split
        · decide
        · split
          · decide
          · split
            · decide
            · decide

/-- The reply keyword scan always answers from the closed label set. -/
theorem replyScan_mem (r : Str) (ot : Option Str) :
    replyScan r ot ∈ LABELS := by
  simp only [replyScan]
  split
  · decide
  · split
    · decide
    · split
      · decide
      · split
        · decide
        · exact heuristic_mem ot

/-- The normalizer always answers from the closed label set. -/
theorem normalize_mem (reply ot : Option Str) :
    normalize_label reply ot ∈ LABELS := by
  cases reply with
  | none => exact heuristic_mem ot
  | some rp =>
    simp only [normalize_label]
    split
    · exact heuristic_mem ot
    · split
      · rename_i lbl hfound
        exact List.mem_of_find?_eq_some hfound
      · split
        · split
          · exact heuristic_mem ot
          · exact replyScan_mem _ ot
        · exact replyScan_mem _ ot

/-- A status rewrite keeps the record found under the same key, with the
rewrite applied. -/
theorem find?_updateFirst (store : List TicketLog) (key : Option String)
    (f : TicketLog → TicketLog) (hf : ∀ r, (f r).ticket_id = r.ticket_id) :
    (updateFirst store key f).find? (fun r => r.ticket_id == key) =
      (store.find? (fun r => r.ticket_id == key)).map f := by
  induction store with
  | nil => rfl
  | cons r rs ih =>
    unfold updateFirst
    cases hr : (r.ticket_id == key)
    · simp only [Bool.false_eq_true, if_false, List.find?_cons, hr, ih]
    · simp only [if_true, List.find?_cons, hr, hf]
      rfl

/-- Every record of an updated store is an old record, possibly
rewritten. -/
theorem mem_updateFirst (store : List TicketLog) (key : Option String)
    (f : TicketLog → TicketLog) (r' : TicketLog)
    (h : r' ∈ updateFirst store key f) :
    r' ∈ store ∨ ∃ r ∈ store, r' = f r := by
  induction store with
  | nil => simp [updateFirst] at h
  | cons r rs ih =>
    unfold updateFirst at h
    by_cases hr : (r.ticket_id == key) = true
    · rw [if_pos hr] at h
      rcases List.mem_cons.mp h with heq | hmem
      · exact Or.inr ⟨r, by simp, heq⟩
      · exact Or.inl (by simp [hmem])
    · rw [if_neg hr] at h
      rcases List.mem_cons.mp h with heq | hmem
      · exact Or.inl (by simp [heq])
      · rcases ih hmem with h1 | ⟨x, hx, hx'⟩
        · exact Or.inl (by simp [h1])
        · exact Or.inr ⟨x, by simp [hx], hx'⟩

/-- On a store where the two key columns agree record-wise, looking up by
either column gives the same result. -/
theorem find?_key_interchange (store : List TicketLog)
    (hinv : ∀ r ∈ store, r.ticket_id = r.jira_issue_key)
    (v : Option String) :
    store.find? (fun r => r.ticket_id == v) =
      store.find? (fun r => r.jira_issue_key == v) := by
  induction store with
  | nil => rfl
  | cons r rs ih =>
    have hr := hinv r (by simp)
    have hrs : ∀ x ∈ rs, x.ticket_id = x.jira_issue_key :=
      fun x hx => hinv x (by simp [hx])
    simp only [List.find?_cons, hr, ih hrs]

/-- Starting with a lowercase-fixed pattern is preserved by lowercasing the
text. -/
theorem leadsWith_lower (pat : Str) (hpat : pat.map pyLowerChar = pat) :
    ∀ t : Str, leadsWith t pat = true → leadsWith (pyLower t) pat = true := by
  induction pat with
  | nil => intro t _; cases t <;> rfl
  | cons d ds ih =>
    intro t h
    cases t with
    | nil => simp [leadsWith] at h
    | cons c cs =>
      simp only [List.map_cons, List.cons.injEq] at hpat
      simp only [leadsWith, Bool.and_eq_true, decide_eq_true_eq] at h
      obtain ⟨rfl, h2⟩ := h
      simp only [pyLower, List.map_cons, leadsWith, Bool.and_eq_true,
        decide_eq_true_eq]
      exact ⟨hpat.1, ih hpat.2 cs h2⟩

/-- Containment of a lowercase-fixed pattern is preserved by lowercasing the
text (`pat in t` implies `pat in t.lower()`). -/
theorem strHas_lower (pat : Str) (hpat : pat.map pyLowerChar = pat) :
    ∀ t : Str, strHas pat t = true → strHas pat (pyLower t) = true := by
  intro t
  induction t with
  | nil => intro h; exact h
  | cons c cs ih =>
    intro h
    simp only [strHas, Bool.or_eq_true] at h
    simp only [pyLower, List.map_cons, strHas, Bool.or_eq_true]
    rcases h with h1 | h2
    · left
      have := leadsWith_lower pat hpat (c :: cs) h1
      simpa [pyLower] using this
    · right
      exact ih h2

/-- Claim C7: the heuristic maps empty (and absent) text to `Task`, and
otherwise scans its fixed keyword tables in the priority order Bug, then
Incident, then FeatureRequest, then Question, the first table containing a
hit winning and no hit yielding `Task` (the spec-shaped `heuristicSpec`);
in particular every text containing both `"crash"` and `"feature"` maps to
`Bug`. -/
theorem heuristic_priority_scan :
    (heuristic none = "Task".data ∧ heuristic (some []) = "Task".data) ∧
    (∀ t : Str, heuristic (some t) = heuristicSpec t) ∧
    (∀ t : Str, strHas "crash".data t = true →
      strHas "feature".data t = true → heuristic (some t) = "Bug".data) := by
  refine ⟨⟨rfl, rfl⟩, fun t => rfl, fun t h1 h2 => ?_⟩
  have h1' := strHas_lower "crash".data (by decide) t h1
  have hany : bug_words.any (fun w => strHas w (pyLower t)) = true :=
    List.any_eq_true.mpr ⟨"crash".data, by decide, h1'⟩
  cases t with
  | nil => simp [strHas] at h1
  | cons c cs =>
    simp only [heuristic, List.isEmpty_cons, Bool.false_eq_true, if_false,
      hany, if_true]

/-- Witness for C7: a text containing both keywords classifies as `Bug`,
and absent text as `Task`. -/
theorem heuristic_priority_scan_witness :
    heuristic (some "the crash broke the feature".data) = "Bug".data ∧
    heuristic none = "Task".data :=
  ⟨heuristic_priority_scan.2.2 _ (by decide) (by decide),
   heuristic_priority_scan.1.1⟩

/-- Claim C5: with neither inference resource configured, `classify_ticket`
returns `Task` for every input text and every tier outcome — the heuristic
over the original text is never consulted on this path. -/
theorem classify_default_task (cfg : LlmConfig)
    (h1 : optStrTruthy cfg.GGML_MODEL_PATH = false)
    (h2 : optStrTruthy cfg.OPENAI_API_KEY = false) :
    ∀ (text : Str) (g : GgmlOutcome) (o : OpenAIOutcome),
      classify_ticket text cfg g o = "Task".data := by
  intro text g o
  simp [classify_ticket, h1, h2]

/-- Witness for C5: bug-like text still answers `Task` when nothing is
configured. -/
theorem classify_default_task_witness :
    classify_ticket "My app crashes on startup".data ⟨none, none⟩
      (.success (some "Bug".data)) (.success "Bug".data) = "Task".data :=
  classify_default_task ⟨none, none⟩ rfl rfl _ _ _

/-- Claim C4: `classify_ticket` is total — for every input text, every
configuration and every outcome of the local and remote tiers (including
all error outcomes), it returns a member of the closed label set; the
embedding is a total function, matching the source in which every tier
failure is caught and swallowed. -/
theorem classify_total (text : Str) (cfg : LlmConfig) (g : GgmlOutcome)
    (o : OpenAIOutcome) : classify_ticket text cfg g o ∈ LABELS := by
  have hg : classify_with_ggml text cfg g ∈ LABELS := by
    unfold classify_with_ggml
    split
    · decide
    · cases g with
      | fileMissing => exact show "Task".data ∈ LABELS by decide
      | importError => exact show "Task".data ∈ LABELS by decide
      | runError => exact show "Task".data ∈ LABELS by decide
      | success reply => exact normalize_mem reply (some text)
  have ho : classify_with_openai text cfg o ∈ LABELS := by
    unfold classify_with_openai
    split
    · decide
    · cases o with
      | requestError => exact show "Task".data ∈ LABELS by decide
      | status401 => exact show "Task".data ∈ LABELS by decide
      | parseError => exact show "Task".data ∈ LABELS by decide
      | structureError => exact show "Task".data ∈ LABELS by decide
      | success reply => exact normalize_mem (some (pyTrim reply)) (some text)
  simp only [classify_ticket]
  split
  · split
    · exact hg
    · split
      · exact ho
      · decide
  · split
    · exact ho
    · decide

/-- Claim C6: when the candidate matches no label exactly or by leading
tokens, the heuristic over the original text is consulted before the reply
keyword scan, and its result is returned whenever it is not `Task`. -/
theorem normalize_prefers_original_heuristic (rp : Str) (ot : Option Str)
    (hnom : ∀ lbl ∈ LABELS, labelMatches (candidate rp) lbl = false)
    (hh : heuristic ot ≠ "Task".data) :
    normalize_label (some rp) ot = heuristic ot := by
  simp only [normalize_label]
  split
  · rfl
  · have hfind : LABELS.find? (fun lbl => labelMatches (candidate rp) lbl)
        = none :=
      List.find?_eq_none.mpr (fun x hx => by simp [hnom x hx])
    simp only [hfind]
    cases ot with
    | none => exact absurd rfl hh
    | some t =>
      cases t with
      | nil => exact absurd rfl hh
      | cons c cs =>
        have htr : optTruthy (some (c :: cs)) = true := rfl
        simp only [htr, if_true]
        have hmem := heuristic_mem (some (c :: cs))
        simp only [LABELS, List.mem_cons, List.mem_singleton,
          List.not_mem_nil, or_false] at hmem
        rcases hmem with h1 | h1 | h1 | h1 | h1 <;> rw [h1]
        · exact absurd h1 hh
        · simp
        · simp
        · simp
        · simp

/-- Witness for C6: a noisy reply mentioning `"feature"` with original text
`"My app crashes on startup"` normalizes to `Bug`. -/
theorem normalize_prefers_original_heuristic_witness :
    normalize_label (some "possibly a feature".data)
      (some "My app crashes on startup".data) = "Bug".data := by
  have h := normalize_prefers_original_heuristic "possibly a feature".data
    (some "My app crashes on startup".data) (by decide) (by decide)
  rw [h]
  decide

/-- Claim C1 is false on the code: the spec's own example reply
`"Feature Request: needs a dropdown"` does not normalize to
`Feature Request` — tokenization keeps the colon attached
(`"request:" ≠ "request"`), so no label matches, and the reply keyword scan
then hits `"down"` inside `"dropdown"`, giving `Incident`. -/
theorem normalize_prefix_counterexample :
    ¬(normalize_label (some "Feature Request: needs a dropdown".data) none
        = "Feature Request".data) ∧
    normalize_label (some "Feature Request: needs a dropdown".data) none
      = "Incident".data := by
  constructor
  · decide
  · decide

/-- Claim C1 (amended): for every reply whose first non-empty line's leading
whitespace-separated tokens equal (case-insensitively) the tokens of one of
the five labels, the normalizer returns that label — but a trailing colon
sticks to the token, so replies of the shape `"Bug: ..."` or
`"Feature Request: ..."` do not satisfy the hypothesis and are not covered
(see the counterexample). -/
theorem normalize_prefix_tokens (rp : Str) (ot : Option Str) (lbl : Str)
    (hmem : lbl ∈ LABELS)
    (hlen : (words (pyLower lbl)).length ≤
      (words (pyLower (candidate rp))).length)
    (htake : (words (pyLower (candidate rp))).take
        (words (pyLower lbl)).length = words (pyLower lbl)) :
    normalize_label (some rp) ot = lbl := by
  cases rp with
  | nil =>
    have hcand : words (pyLower (candidate ([] : Str))) = [] := by decide
    rw [hcand, List.take_nil] at htake
    fin_cases hmem <;> exact absurd htake (by decide)
  | cons c cs =>
    simp only [normalize_label, List.isEmpty_cons, Bool.false_eq_true,
      if_false]
    fin_cases hmem
    · have e : words (pyLower "Task".data) = ["task".data] := by decide
      rw [e] at hlen htake
      simp only [List.length_singleton] at hlen htake
      have hm : labelMatches (candidate (c :: cs)) "Task".data = true :=
        labelMatches_of_tokens _ _ (by rw [e]; simpa using hlen)
          (by rw [e]; simpa using htake) (by decide)
      have hfind : LABELS.find?
          (fun l => labelMatches (candidate (c :: cs)) l)
          = some "Task".data := by
        simp [LABELS, List.find?, hm]
      simp only [hfind]
    · have e : words (pyLower "Bug".data) = ["bug".data] := by decide
      rw [e] at hlen htake
      simp only [List.length_singleton] at hlen htake
      have hw : (words (pyLower (candidate (c :: cs)))).head?
          = some "bug".data := head_of_take _ 1 _ [] htake
      have hm : labelMatches (candidate (c :: cs)) "Bug".data = true :=
        labelMatches_of_tokens _ _ (by rw [e]; simpa using hlen)
          (by rw [e]; simpa using htake) (by decide)
      have hT : labelMatches (candidate (c :: cs)) "Task".data = false :=
        labelMatches_false_of_head _ _ _ "task".data [] hw (by decide)
          (by decide)
      have hfind : LABELS.find?
          (fun l => labelMatches (candidate (c :: cs)) l)
          = some "Bug".data := by
        simp [LABELS, List.find?, hm, hT]
      simp only [hfind]
    · have e : words (pyLower "Incident".data) = ["incident".data] := by
        decide
      rw [e] at hlen htake
      simp only [List.length_singleton] at hlen htake
      have hw : (words (pyLower (candidate (c :: cs)))).head?
          = some "incident".data := head_of_take _ 1 _ [] htake
      have hm : labelMatches (candidate (c :: cs)) "Incident".data = true :=
        labelMatches_of_tokens _ _ (by rw [e]; simpa using hlen)
          (by rw [e]; simpa using htake) (by decide)
      have hT : labelMatches (candidate (c :: cs)) "Task".data = false :=
        labelMatches_false_of_head _ _ _ "task".data [] hw (by decide)
          (by decide)
      have hB : labelMatches (candidate (c :: cs)) "Bug".data = false :=
        labelMatches_false_of_head _ _ _ "bug".data [] hw (by decide)
          (by decide)
      have hfind : LABELS.find?
          (fun l => labelMatches (candidate (c :: cs)) l)
          = some "Incident".data := by
        simp [LABELS, List.find?, hm, hT, hB]
      simp only [hfind]
    · have e : words (pyLower "Feature Request".data)
          = ["feature".data, "request".data] := by decide
      rw [e] at hlen htake
      simp only [List.length_cons, List.length_singleton] at hlen htake
      have hw : (words (pyLower (candidate (c :: cs)))).head?
          = some "feature".data := head_of_take _ 2 _ ["request".data] htake
      have hm : labelMatches (candidate (c :: cs)) "Feature Request".data
          = true :=
        labelMatches_of_tokens _ _ (by rw [e]; simpa using hlen)
          (by rw [e]; simpa using htake) (by decide)
      have hT : labelMatches (candidate (c :: cs)) "Task".data = false :=
        labelMatches_false_of_head _ _ _ "task".data [] hw (by decide)
          (by decide)
      have hB : labelMatches (candidate (c :: cs)) "Bug".data = false :=
        labelMatches_false_of_head _ _ _ "bug".data [] hw (by decide)
          (by decide)
      have hI : labelMatches (candidate (c :: cs)) "Incident".data
          = false :=
        labelMatches_false_of_head _ _ _ "incident".data [] hw (by decide)
          (by decide)
      have hfind : LABELS.find?
          (fun l => labelMatches (candidate (c :: cs)) l)
          = some "Feature Request".data := by
        simp [LABELS, List.find?, hm, hT, hB, hI]
      simp only [hfind]
    · have e : words (pyLower "Question".data) = ["question".data] := by
        decide
      rw [e] at hlen htake
      simp only [List.length_singleton] at hlen htake
      have hw : (words (pyLower (candidate (c :: cs)))).head?
          = some "question".data := head_of_take _ 1 _ [] htake
      have hm : labelMatches (candidate (c :: cs)) "Question".data = true :=
        labelMatches_of_tokens _ _ (by rw [e]; simpa using hlen)
          (by rw [e]; simpa using htake) (by decide)
      have hT : labelMatches (candidate (c :: cs)) "Task".data = false :=
        labelMatches_false_of_head _ _ _ "task".data [] hw (by decide)
          (by decide)
      have hB : labelMatches (candidate (c :: cs)) "Bug".data = false :=
        labelMatches_false_of_head _ _ _ "bug".data [] hw (by decide)
          (by decide)
      have hI : labelMatches (candidate (c :: cs)) "Incident".data
          = false :=
        labelMatches_false_of_head _ _ _ "incident".data [] hw (by decide)
          (by decide)
      have hF : labelMatches (candidate (c :: cs)) "Feature Request".data
          = false :=
        labelMatches_false_of_head _ _ _ "feature".data ["request".data] hw
          (by decide) (by decide)
      have hfind : LABELS.find?
          (fun l => labelMatches (candidate (c :: cs)) l)
          = some "Question".data := by
        simp [LABELS, List.find?, hm, hT, hB, hI, hF]
      simp only [hfind]

/-- Witness for the amended C1: without the colon the leading tokens do
match, and the label is returned. -/
theorem normalize_prefix_tokens_witness :
    normalize_label (some "Feature Request needs a dropdown".data) none
      = "Feature Request".data :=
  normalize_prefix_tokens _ none "Feature Request".data (by decide)
    (by decide) (by decide)

/-- Claim C3: the background intake unit persists a Ticket Record if and
only if the collaborator returns a non-empty key — on success exactly one
record is appended with `status = created` and the computed label, and the
success notification carries the approval block; on failure the store is
untouched and the failure notification is requested.  The third part
exhibits the approval block's two controls, each carrying the external key
as its value. -/
theorem intake_persists_iff_key (text user_id channel_id : Option String)
    (co : ClassifyOutcome) (jiraRes : Option String)
    (store : List TicketLog) :
    (∀ k : String, jiraRes = some k → k.isEmpty = false →
      background_handle_ticket text user_id channel_id co jiraRes store =
        (store ++
          [{ slack_user := user_id, slack_channel := channel_id,
             ticket_id := some k, jira_issue_key := some k,
             llm_result := some (computeCategory text co),
             status := some "created" }],
         [.createIssue text text JIRA_PROJECT_KEY
            (issue_type_for (computeCategory text co)),
          .sendMessage channel_id ("Ticket has been created: " ++ k)
            (some (build_approval_block (some k))) user_id])) ∧
    (optStrTruthy jiraRes = false →
      background_handle_ticket text user_id channel_id co jiraRes store =
        (store,
         [.createIssue text text JIRA_PROJECT_KEY
            (issue_type_for (computeCategory text co)),
          .sendMessage channel_id failText none user_id])) ∧
    (∀ k : String, k.isEmpty = false →
      build_approval_block (some k) =
        [SlackBlock.section
          ("Jira ticket *" ++ k ++
           "* has been created. Do you want to approve or reject it?"),
         SlackBlock.actions ("actions_" ++ k)
          [⟨"Approve", "primary", k, "approve_ticket"⟩,
           ⟨"Reject", "danger", k, "reject_ticket"⟩]]) := by
  refine ⟨?_, ?_, ?_⟩
  · intro k hk hke
    subst hk
    simp [background_handle_ticket, hke]
  · intro hf
    cases jiraRes with
    | none => simp [background_handle_ticket]
    | some k =>
      have hk : k.isEmpty = true := by
        simpa [optStrTruthy] using hf
      simp [background_handle_ticket, hk]
  · intro k hk
    simp [build_approval_block, hk]

/-- Witness for C3: one successful and one failed intake at concrete
inputs. -/
theorem intake_persists_iff_key_witness :
    background_handle_ticket (some "app is broken") (some "U1") (some "C1")
      (.ok "Bug") (some "KAN-7") [] =
      ([⟨some "U1", some "C1", some "KAN-7", some "KAN-7", some "Bug",
         some "created"⟩],
       [.createIssue (some "app is broken") (some "app is broken")
          "YOURPROJECT" "Bug",
        .sendMessage (some "C1") "Ticket has been created: KAN-7"
          (some (build_approval_block (some "KAN-7"))) (some "U1")]) ∧
    background_handle_ticket (some "x") (some "U1") (some "C1") (.ok "Bug")
      none [] =
      ([],
       [.createIssue (some "x") (some "x") "YOURPROJECT" "Bug",
        .sendMessage (some "C1") failText none (some "U1")]) := by
  constructor
  · rw [(intake_persists_iff_key (some "app is broken") (some "U1")
      (some "C1") (.ok "Bug") (some "KAN-7") []).1 "KAN-7" rfl (by decide)]
    decide
  · rw [(intake_persists_iff_key (some "x") (some "U1") (some "C1")
      (.ok "Bug") none []).2.1 rfl]
    decide

/-- Claim C8: on an existing record, the approve action id sets the status
to `approved`, the reject action id to `rejected`, any other action id
leaves the store unchanged, and approving then rejecting the same key ends
with `rejected` — last write wins, with no terminal-state guard. -/
theorem action_transitions (store : List TicketLog) (k : String)
    (r : TicketLog)
    (hfind : store.find? (fun rec => rec.ticket_id == some k) = some r) :
    ((slack_actions (actionRequest "approve_ticket" k) store).2.1.find?
        (fun rec => rec.ticket_id == some k)
      = some { r with status := some "approved" }) ∧
    ((slack_actions (actionRequest "reject_ticket" k) store).2.1.find?
        (fun rec => rec.ticket_id == some k)
      = some { r with status := some "rejected" }) ∧
    (∀ aid : String, aid ≠ "approve_ticket" → aid ≠ "reject_ticket" →
      (slack_actions (actionRequest aid k) store).2.1 = store) ∧
    ((slack_actions (actionRequest "reject_ticket" k)
        ((slack_actions (actionRequest "approve_ticket" k)
          store).2.1)).2.1.find? (fun rec => rec.ticket_id == some k)
      = some { r with status := some "rejected" }) := by
  have happ : (slack_actions (actionRequest "approve_ticket" k) store).2.1
      = updateFirst store (some k)
          (fun rec => { rec with status := some "approved" }) := by
    simp [slack_actions, actionRequest, slack_actions_payload, hfind]
  have hrej : ∀ (st : List TicketLog) (r' : TicketLog),
      st.find? (fun rec => rec.ticket_id == some k) = some r' →
      (slack_actions (actionRequest "reject_ticket" k) st).2.1
        = updateFirst st (some k)
            (fun rec => { rec with status := some "rejected" }) := by
    intro st r' hf
    simp [slack_actions, actionRequest, slack_actions_payload, hf]
  refine ⟨?_, ?_, ?_, ?_⟩
  · rw [happ, find?_updateFirst store (some k)
      (fun rec => { rec with status := some "approved" }) (fun _ => rfl),
      hfind]
    rfl
  · rw [hrej store r hfind, find?_updateFirst store (some k)
      (fun rec => { rec with status := some "rejected" }) (fun _ => rfl),
      hfind]
    rfl
  · intro aid h1 h2
    simp [slack_actions, actionRequest, slack_actions_payload, hfind, h1, h2]
  · have hfind2 : ((slack_actions (actionRequest "approve_ticket" k)
        store).2.1).find? (fun rec => rec.ticket_id == some k)
        = some { r with status := some "approved" } := by
      rw [happ, find?_updateFirst store (some k)
        (fun rec => { rec with status := some "approved" }) (fun _ => rfl),
        hfind]
      rfl
    rw [hrej _ _ hfind2, find?_updateFirst _ (some k)
      (fun rec => { rec with status := some "rejected" }) (fun _ => rfl),
      hfind2]
    rfl

/-- Witness for C8: approve then reject on a concrete one-record store ends
with `rejected`. -/
theorem action_transitions_witness :
    ((slack_actions (actionRequest "reject_ticket" "KAN-1")
        ((slack_actions (actionRequest "approve_ticket" "KAN-1")
          [⟨some "U1", some "C1", some "KAN-1", some "KAN-1", some "Bug",
            some "created"⟩]).2.1)).2.1.find?
        (fun rec => rec.ticket_id == some "KAN-1"))
      = some ⟨some "U1", some "C1", some "KAN-1", some "KAN-1", some "Bug",
          some "rejected"⟩ :=
  (action_transitions
    [⟨some "U1", some "C1", some "KAN-1", some "KAN-1", some "Bug",
      some "created"⟩] "KAN-1"
    ⟨some "U1", some "C1", some "KAN-1", some "KAN-1", some "Bug",
      some "created"⟩ (by decide)).2.2.2

/-- Claim C10: every record the intake pipeline persists has
`ticket_id = jira_issue_key` (both set to the returned external key), the
action handler — whose lookup runs on `ticket_id` — preserves the equality,
and on any store satisfying it a lookup by either key field returns the same
record, so the two fields are interchangeable correlation keys. -/
theorem key_fields_interchangeable :
    (∀ (text uid ch : Option String) (co : ClassifyOutcome)
        (jiraRes : Option String) (store : List TicketLog),
      (∀ r ∈ store, r.ticket_id = r.jira_issue_key) →
      ∀ r ∈ (background_handle_ticket text uid ch co jiraRes store).1,
        r.ticket_id = r.jira_issue_key) ∧
    (∀ (req : ActionsRequest) (store : List TicketLog),
      (∀ r ∈ store, r.ticket_id = r.jira_issue_key) →
      ∀ r ∈ (slack_actions req store).2.1, r.ticket_id = r.jira_issue_key) ∧
    (∀ store : List TicketLog,
      (∀ r ∈ store, r.ticket_id = r.jira_issue_key) →
      ∀ v : Option String,
        store.find? (fun r => r.ticket_id == v)
          = store.find? (fun r => r.jira_issue_key == v)) := by
  have hpay : ∀ (p : Payload) (store : List TicketLog),
      (∀ r ∈ store, r.ticket_id = r.jira_issue_key) →
      ∀ r ∈ (slack_actions_payload p store).2.1,
        r.ticket_id = r.jira_issue_key := by
    intro p store hinv r hr
    unfold slack_actions_payload at hr
    split at hr
    · exact hinv r hr
    · exact hinv r hr
    · split at hr
      · exact hinv r hr
      · split at hr
        · simp only [] at hr
          split at hr
          · exact hinv r hr
          · rcases mem_updateFirst _ _ _ _ hr with hh | ⟨x, hx, rfl⟩
            · exact hinv r hh
            · exact hinv x hx
        · split at hr
          · simp only [] at hr
            split at hr
            · exact hinv r hr
            · rcases mem_updateFirst _ _ _ _ hr with hh | ⟨x, hx, rfl⟩
              · exact hinv r hh
              · exact hinv x hx
          · simp only [] at hr
            split at hr
            · exact hinv r hr
            · exact hinv r hr
  refine ⟨?_, ?_, ?_⟩
  · intro text uid ch co jiraRes store hinv r hr
    cases jiraRes with
    | none =>
      exact hinv r hr
    | some k =>
      unfold background_handle_ticket at hr
      simp only [] at hr
      by_cases hk : k.isEmpty = true
      · rw [if_pos hk] at hr
        exact hinv r hr
      · rw [if_neg hk] at hr
        rcases List.mem_append.mp hr with h1 | h1
        · exact hinv r h1
        · rw [List.mem_singleton] at h1
          subst h1
          rfl
  · intro req store hinv r hr
    cases req with
    | jsonBody p => exact hpay p store hinv r hr
    | jsonBodyInvalid => exact hinv r hr
    | formWithPayload p => exact hpay p store hinv r hr
    | formPayloadInvalid => exact hinv r hr
    | formNoPayloadRawJson p => exact hpay p store hinv r hr
    | formNoPayloadRawInvalid => exact hinv r hr
  · intro store hinv v
    exact find?_key_interchange store hinv v

/-- Witness for C10: on the store the pipeline itself produced, looking up
by `ticket_id` and by `jira_issue_key` agree. -/
theorem key_fields_interchangeable_witness :
    (background_handle_ticket (some "t") (some "U1") (some "C1") (.ok "Bug")
        (some "KAN-9") []).1.find? (fun r => r.ticket_id == some "KAN-9")
      = (background_handle_ticket (some "t") (some "U1") (some "C1")
          (.ok "Bug") (some "KAN-9") []).1.find?
          (fun r => r.jira_issue_key == some "KAN-9") :=
  key_fields_interchangeable.2.2 _
    (key_fields_interchangeable.1 (some "t") (some "U1") (some "C1")
      (.ok "Bug") (some "KAN-9") [] (fun r hr => absurd hr (by simp)))
    (some "KAN-9")

/-- Claim C2 is false on the code: a parsed payload with no `actions` key
does not produce the invalid-payload response — line 127 raises an unhandled
`KeyError` — and a payload whose action has no value reaches the store and
answers `"ticket not found"`. -/
theorem invalid_payload_counterexample :
    ¬((slack_actions (.jsonBody ⟨none, none, none, none⟩) []).1
        = .ok "invalid payload") ∧
    slack_actions (.jsonBody ⟨none, none, none, none⟩) []
      = (.error .keyError, [], []) ∧
    (slack_actions
        (.jsonBody ⟨some [⟨some "approve_ticket", none⟩], none, none, none⟩)
        [⟨some "U1", some "C1", some "KAN-1", some "KAN-1", some "Bug",
          some "created"⟩]).1
      = .ok "ticket not found" := by
  refine ⟨by decide, by decide, by decide⟩

/-- Claim C2 (amended): a payload missing the `actions` list raises an
unhandled `KeyError` (no response, in particular not the invalid-payload
one) with no store change and no message, in every delivery shape; the
generic invalid-payload response arises exactly on a form request with no
`payload` field whose raw body is not JSON, again with no store action; and
a payload whose first action has no value looks the null key up in the
store and, when no record carries a null key, answers `"ticket not found"`
with no store change. -/
theorem invalid_payload_behaviour :
    (∀ (p : Payload) (store : List TicketLog), p.actions = none →
      slack_actions (.jsonBody p) store = (.error .keyError, store, []) ∧
      slack_actions (.formWithPayload p) store
        = (.error .keyError, store, []) ∧
      slack_actions (.formNoPayloadRawJson p) store
        = (.error .keyError, store, [])) ∧
    (∀ store : List TicketLog,
      slack_actions .formNoPayloadRawInvalid store
        = (.ok "invalid payload", store, [])) ∧
    (∀ (p : Payload) (store : List TicketLog) (a : ActionItem)
        (rest : List ActionItem) (aid : String),
      p.actions = some (a :: rest) → a.action_id = some aid →
      a.value = none →
      store.find? (fun r => r.ticket_id == none) = none →
      slack_actions (.jsonBody p) store =
        (.ok "ticket not found", store,
         [.sendMessage (resolveChannel p)
            ("Ticket " ++ pyStr none ++ " not found in the database.")
            none none])) := by
  refine ⟨?_, ?_, ?_⟩
  · intro p store hp
    refine ⟨?_, ?_, ?_⟩ <;>
      simp [slack_actions, slack_actions_payload, hp]
  · intro store
    rfl
  · intro p store a rest aid hp ha hv hf
    simp only [slack_actions, slack_actions_payload, hp, ha, hv, hf]

/-- Witness for the amended C2: the three behaviours at concrete inputs. -/
theorem invalid_payload_behaviour_witness :
    slack_actions (.jsonBody ⟨none, none, some ⟨some "C9"⟩, none⟩) []
      = (.error .keyError, [], []) ∧
    slack_actions .formNoPayloadRawInvalid ([] : List TicketLog)
      = (.ok "invalid payload", [], []) ∧
    slack_actions
        (.jsonBody ⟨some [⟨some "approve_ticket", none⟩], none, none,
          some "C7"⟩) []
      = (.ok "ticket not found", [],
         [.sendMessage (some "C7") "Ticket None not found in the database."
            none none]) := by
  refine ⟨(invalid_payload_behaviour.1 _ _ rfl).1,
    invalid_payload_behaviour.2.1 [], ?_⟩
  have h := invalid_payload_behaviour.2.2
    ⟨some [⟨some "approve_ticket", none⟩], none, none, some "C7"⟩ []
    ⟨some "approve_ticket", none⟩ [] "approve_ticket" rfl rfl rfl rfl
  rw [h]
  decide

/-- Claim C9 names the intended behaviour of the status query; the code
satisfies it except on one path, exhibited by the last conjunct: a 200
response whose body is not parseable JSON makes `get_jira_status` re-raise
the parse error at jira.py line 110 (despite the guarded parse at lines
102-107), so the command crashes instead of answering `"Unknown"`. -/
theorem status_query_behaviour :
    (∀ o : JiraStatusOutcome, ticket_status_command (some "   ") o
      = .ok ⟨some "ephemeral",
          "Please provide a ticket key, e.g. /ticket_status KAN-1"⟩) ∧
    (∀ o : JiraStatusOutcome, ticket_status_command none o
      = .ok ⟨some "ephemeral",
          "Please provide a ticket key, e.g. /ticket_status KAN-1"⟩) ∧
    get_jira_status (some "KAN-1") .transportError = .ok "Unknown" ∧
    get_jira_status (some "KAN-1") (.response 503 none) = .ok "Unknown" ∧
    get_jira_status (some "KAN-1") (.response 200 (some ⟨none⟩))
      = .ok "Unknown" ∧
    ticket_status_command (some " KAN-1 ")
        (.response 200 (some ⟨some ⟨some ⟨some "In Progress"⟩⟩⟩))
      = .ok ⟨some "ephemeral", "Ticket KAN-1 Status: In Progress"⟩ ∧
    ticket_status_command (some "KAN-1") (.response 200 none)
      = .error .parseError := by
  refine ⟨fun o => rfl, fun o => rfl, by decide, by decide, by decide,
    by decide, by decide⟩
